import Mathlib

/-!
Verification of the tribute-ui proposal classifier (`Proposals` component,
`src/unnamed/part_000`) and the dual-source total-units fetcher
(`src/src/hooks/useDaoTotalUnits.ts`) against their natural-language
specification.

The TypeScript code is shallowly embedded: the per-proposal classification
loop becomes a function returning an optional bucket, the bucket-filling
`forEach` becomes a fold, and the React effects become explicit functions of
the component's observable inputs.  Decimal-string chain balances are parsed
to naturals; issued units are computed in `Int` exactly as `toBN(..).sub(..)`
does (big-number subtraction, which may go negative).
-/

/-- Modelled from the spec: lifecycle of an asynchronous fetch
(`AsyncStatus` from `util/types`, not included under `src/`):
STANDBY = not yet started, PENDING = in flight, FULFILLED = last fetch
succeeded, REJECTED = last fetch failed. -/
inductive AsyncStatus
  | STANDBY
  | PENDING
  | FULFILLED
  | REJECTED
deriving DecidableEq, Repr, BEq

/-- Modelled from the spec: the indexer-health signal with two states
(`SubgraphNetworkStatus` from the store types, not included under `src/`). -/
inductive SubgraphNetworkStatus
  | OK
  | NOT_OK
deriving DecidableEq, Repr, BEq

/-- Modelled from the spec: enumeration of a proposal's current vote phase
(`VotingState` from `components/proposals/voting/types`, not included under
`src/`).  Undefined/absent is represented as `Option.none` at use sites. -/
inductive VotingState
  | IN_PROGRESS
  | GRACE_PERIOD
  | TIE
  | PASS
  | NOT_PASS
deriving DecidableEq, Repr, BEq

/-- Modelled from the spec: flags set on a proposal's on-chain record
(`ProposalFlag` from `components/proposals/types`, not included under
`src/`).  A proposal may hold several flags simultaneously, so a record
carries a list of them. -/
inductive ProposalFlag
  | EXISTS
  | SPONSORED
  | PROCESSED
deriving DecidableEq, Repr, BEq

/-- Modelled from the spec: `proposalHasFlag` from
`components/proposals/helpers` (not included under `src/`) tests whether the
on-chain record's flag set carries a given flag. -/
def proposalHasFlag (flag : ProposalFlag) (flags : List ProposalFlag) : Bool :=
  flags.contains flag

/-- Modelled from the spec: `proposalHasVotingState` from
`components/proposals/helpers` (not included under `src/`) tests whether the
recorded vote state equals a given `VotingState`. -/
def proposalHasVotingState (s : VotingState) (voteState : VotingState) : Bool :=
  voteState == s

/-- Modelled from the spec: `normalizeString` from `util/helpers` (not
included under `src/`) normalizes identifiers for case-insensitive
comparison by lower-casing them (written character-wise, which agrees with
`String.toLower`). -/
def normalizeString (s : String) : String :=
  ⟨s.data.map Char.toLower⟩

/-- Modelled from the spec: the reserved null/burn address (`BURN_ADDRESS`
from `util/constants`, not included under `src/`). -/
def BURN_ADDRESS : String :=
  "0x0000000000000000000000000000000000000000"

/-- Per-choice aggregate unit count inside a `VotingResult`
(`components/proposals/types`). -/
structure VoteChoiceResult where
  units : Nat
deriving DecidableEq, Repr

/-- `VotingResult`: mapping from choice name ("Yes"/"No") to an aggregate
unit count (`components/proposals/types`). -/
structure VotingResult where
  Yes : VoteChoiceResult
  No : VoteChoiceResult
deriving DecidableEq, Repr

/-- The on-chain proposal record; the classifier only reads its `flags`
field (`daoProposal.flags`). -/
structure DaoProposal where
  flags : List ProposalFlag
deriving DecidableEq, Repr

/-- The recorded off-chain voting data
(`daoProposalVotes?.OffchainVotingContract?.reporter`, part_000 line 152). -/
structure OffchainVotingContractVotes where
  reporter : String
deriving DecidableEq, Repr

/-- Wrapper matching `daoProposalVotes` whose `OffchainVotingContract` field
may be absent. -/
structure DaoProposalVotes where
  OffchainVotingContract : Option OffchainVotingContractVotes
deriving DecidableEq, Repr

/-- Snapshot (off-chain) proposal message: identifier in the DAO and the
recorded off-chain votes, either of which may be absent on the aggregate. -/
structure SnapshotProposal where
  idInDAO : String
  votes : Option (List Unit)
deriving DecidableEq, Repr

/-- `ProposalData` (cf. `components/proposals/types`): the aggregate record
the classifier consumes.  Only the fields read by the classification loop in
part_000 lines 136-253 are embedded. -/
structure ProposalData where
  daoProposal : Option DaoProposal
  daoProposalVotingState : Option VotingState
  daoProposalVotes : Option DaoProposalVotes
  snapshotProposal : Option SnapshotProposal
deriving DecidableEq, Repr

/-- The four display buckets of `FilteredProposals`. -/
inductive Bucket
  | failed
  | nonsponsored
  | passed
  | voting
deriving DecidableEq, Repr, BEq

/-- `FilteredProposals` (part_000 lines 44-49): the four-bucket partition. -/
structure FilteredProposals where
  failedProposals : List ProposalData
  nonsponsoredProposals : List ProposalData
  passedProposals : List ProposalData
  votingProposals : List ProposalData
deriving DecidableEq, Repr

/-- The initial empty partition (part_000 lines 129-134). -/
def emptyFilteredProposals : FilteredProposals :=
  { failedProposals := []
    nonsponsoredProposals := []
    passedProposals := []
    votingProposals := [] }

/-- part_000 line 145: `p.snapshotProposal?.votes?.length === 0`; a missing
`snapshotProposal` or missing `votes` makes the comparison false. -/
def noSnapshotVotes (p : ProposalData) : Bool :=
  match p.snapshotProposal with
  | some sp =>
    match sp.votes with
    | some vs => vs.length == 0
    | none => false
  | none => false

/-- part_000 line 152: `votesData?.OffchainVotingContract?.reporter ===
BURN_ADDRESS`; a missing layer makes the comparison false. -/
def reporterIsBurnAddress (p : ProposalData) : Bool :=
  match p.daoProposalVotes with
  | some vd =>
    match vd.OffchainVotingContract with
    | some oc => oc.reporter == BURN_ADDRESS
    | none => false
  | none => false

/-- part_000 lines 147-152: `offchainResultNotYetSubmitted`, evaluated with a
defined vote state (the `voteState !== undefined` conjunct is discharged by
the caller's match on the optional vote state). -/
def offchainResultNotYetSubmitted (voteState : VotingState)
    (daoProposal : DaoProposal) (p : ProposalData) : Bool :=
  (proposalHasVotingState VotingState.GRACE_PERIOD voteState ||
    proposalHasVotingState VotingState.TIE voteState) &&
  proposalHasFlag ProposalFlag.SPONSORED daoProposal.flags &&
  reporterIsBurnAddress p

/-- part_000 lines 270-272: `didPassSimpleMajority`. -/
def didPassSimpleMajority (offchainVoteResult : VotingResult) : Bool :=
  offchainVoteResult.Yes.units > offchainVoteResult.No.units

/-- part_000 lines 177-181: find this proposal's entry in the off-chain
results collection by normalized identifier (`p.snapshotProposal?.idInDAO ||
''`) and take its result component. -/
def offchainResultLookup (offchainVotingResults : List (String × VotingResult))
    (p : ProposalData) : Option VotingResult :=
  (offchainVotingResults.find? (fun pr =>
    normalizeString pr.1 ==
      normalizeString
        (match p.snapshotProposal with
         | some sp => sp.idInDAO
         | none => ""))).map Prod.snd

/-- The per-proposal body of the classification loop (part_000 lines
136-253), returning the bucket the proposal is pushed into, or `none` when
an early `return` drops it.  Branches appear in source order: absent
on-chain record (line 143), non-sponsored (155-163), passed (166-175),
off-chain result lookup and early return (177-183), voting via unsubmitted
passing result (197-205), failed via vote state (208-218), failed via no
snapshot votes (221-229), failed via non-passing unsubmitted result
(232-240), voting via vote state (243-252). -/
def classifyProposal (includeProposalsExistingOnlyOffchain : Bool)
    (offchainVotingResults : List (String × VotingResult))
    (p : ProposalData) : Option Bucket :=
  match p.daoProposal with
  | none => none
  | some daoProposal =>
    match p.daoProposalVotingState with
    | none =>
      if includeProposalsExistingOnlyOffchain then
        some Bucket.nonsponsored
      else if proposalHasFlag ProposalFlag.EXISTS daoProposal.flags then
        some Bucket.nonsponsored
      else
        none
    | some voteState =>
      if proposalHasVotingState VotingState.PASS voteState &&
          (proposalHasFlag ProposalFlag.SPONSORED daoProposal.flags ||
            proposalHasFlag ProposalFlag.PROCESSED daoProposal.flags) then
        some Bucket.passed
      else
        match offchainResultLookup offchainVotingResults p with
        | none => none
        | some offchainResult =>
          if offchainResultNotYetSubmitted voteState daoProposal p &&
              noSnapshotVotes p == false &&
              didPassSimpleMajority offchainResult then
            some Bucket.voting
          else if (proposalHasVotingState VotingState.NOT_PASS voteState ||
                proposalHasVotingState VotingState.TIE voteState) &&
              (proposalHasFlag ProposalFlag.SPONSORED daoProposal.flags ||
                proposalHasFlag ProposalFlag.PROCESSED daoProposal.flags) then
            some Bucket.failed
          else if offchainResultNotYetSubmitted voteState daoProposal p &&
              noSnapshotVotes p then
            some Bucket.failed
          else if offchainResultNotYetSubmitted voteState daoProposal p &&
              !didPassSimpleMajority offchainResult then
            some Bucket.failed
          else if (proposalHasVotingState VotingState.GRACE_PERIOD voteState ||
                proposalHasVotingState VotingState.IN_PROGRESS voteState) &&
              proposalHasFlag ProposalFlag.SPONSORED daoProposal.flags then
            some Bucket.voting
          else
            none

/-- Push a proposal onto the list of the given bucket (the
`filteredProposalsToSet.<bucket>.push(p)` statements of part_000). -/
def pushToBucket (acc : FilteredProposals) (b : Bucket) (p : ProposalData) :
    FilteredProposals :=
  match b with
  | Bucket.failed => { acc with failedProposals := acc.failedProposals ++ [p] }
  | Bucket.nonsponsored =>
    { acc with nonsponsoredProposals := acc.nonsponsoredProposals ++ [p] }
  | Bucket.passed => { acc with passedProposals := acc.passedProposals ++ [p] }
  | Bucket.voting => { acc with votingProposals := acc.votingProposals ++ [p] }

/-- One iteration of the `proposals.forEach` loop: classify and push. -/
def classifyStep (includeProposalsExistingOnlyOffchain : Bool)
    (offchainVotingResults : List (String × VotingResult))
    (acc : FilteredProposals) (p : ProposalData) : FilteredProposals :=
  match classifyProposal includeProposalsExistingOnlyOffchain
      offchainVotingResults p with
  | some b => pushToBucket acc b p
  | none => acc

/-- The whole classification loop (part_000 lines 129-253): fold the
per-proposal step over the proposal list, starting from the empty
partition. -/
def filterProposals (includeProposalsExistingOnlyOffchain : Bool)
    (offchainVotingResults : List (String × VotingResult))
    (proposals : List ProposalData) : FilteredProposals :=
  proposals.foldl
    (classifyStep includeProposalsExistingOnlyOffchain offchainVotingResults)
    emptyFilteredProposals

/-- Select the list of a given bucket from a partition. -/
def bucketList (fp : FilteredProposals) : Bucket → List ProposalData
  | Bucket.failed => fp.failedProposals
  | Bucket.nonsponsored => fp.nonsponsoredProposals
  | Bucket.passed => fp.passedProposals
  | Bucket.voting => fp.votingProposals

/-- The observable inputs of the `Proposals` component's classification
effect: the primary proposal fetch (list and status) and the off-chain tally
fetch (results and status).  The effect body reads only `proposals`,
`proposalsStatus` and `offchainVotingResults`; the off-chain status is
carried here because the specification speaks about it. -/
structure ProposalsHookState where
  proposals : List ProposalData
  proposalsStatus : AsyncStatus
  offchainVotingResults : List (String × VotingResult)
  offchainVotingResultsStatus : AsyncStatus

/-- One run of the classification effect (part_000 lines 126-264): bail out
unless the primary proposal fetch is FULFILLED (line 127), otherwise
recompute the partition and overwrite all four bucket lists (lines 129-258;
the functional `setFilteredProposals` spreads every field of the freshly
built partition over the previous state). -/
def classificationEffectRun (includeProposalsExistingOnlyOffchain : Bool)
    (hs : ProposalsHookState) (prevState : FilteredProposals) :
    FilteredProposals :=
  if hs.proposalsStatus != AsyncStatus.FULFILLED then
    prevState
  else
    filterProposals includeProposalsExistingOnlyOffchain
      hs.offchainVotingResults hs.proposals

/-- Modelled from the spec: the well-known "total" account queried on the
bank extension (`TOTAL_ADDRESS` from `config`, not included under `src/`). -/
def TOTAL_ADDRESS : String :=
  "0x000000000000000000000000000000000000babe"

/-- Modelled from the spec: the reserved guild account holding unissued unit
supply (`GUILD_ADDRESS` from `config`, not included under `src/`). -/
def GUILD_ADDRESS : String :=
  "0x000000000000000000000000000000000000dead"

/-- Modelled from the spec: the fixed "units" token identifier
(`UNITS_ADDRESS` from `config`, not included under `src/`). -/
def UNITS_ADDRESS : String :=
  "0x00000000000000000000000000000000000ff1ce"

/-- Parse a decimal-string encoded integer to a natural number, as
`web3-utils`' `toBN` does on the decimal strings returned by
`balanceOf(...).call()`. -/
def toBN (s : String) : Nat :=
  s.data.foldl (fun acc c => acc * 10 + (c.toNat - 48)) 0

/-- A contract-read error message (caught exception). -/
abbrev ContractError := String

/-- The bank extension contract as seen by the hook: a `balanceOf(account,
tokenId)` read that either returns a decimal-string balance or throws. -/
structure BankExtensionContract where
  balanceOf : String → String → Except ContractError String

/-- The subgraph reply entry for one DAO: `{totalUnits, totalUnitsIssued}`
as decimal strings (useDaoTotalUnits.ts lines 114-121). -/
structure TributeDao where
  totalUnits : String
  totalUnitsIssued : String
deriving DecidableEq, Repr

/-- The GraphQL data shape consumed by the hook: a collection of DAOs, of
which the hook destructures element 0 (`data.tributeDaos[0]`). -/
structure SubgraphData where
  tributeDaos : List TributeDao
deriving DecidableEq, Repr

/-- The hook's consumer-visible state holders (useDaoTotalUnits.ts lines
57-62).  Issued units live in `Int` because `toBN(total).sub(toBN(guild))`
is a signed big-number subtraction; the `Number(...)` conversions are
modelled as exact. -/
structure UseDaoTotalUnitsState where
  totalUnits : Option Int
  totalUnitsIssued : Option Int
  totalUnitsStatus : AsyncStatus
  totalUnitsError : Option ContractError
deriving Repr

/-- The hook's initial state: both numbers absent, STANDBY, no error. -/
def initialTotalUnitsState : UseDaoTotalUnitsState :=
  { totalUnits := none
    totalUnitsIssued := none
    totalUnitsStatus := AsyncStatus.STANDBY
    totalUnitsError := none }

/-- `getTotalUnitsFromExtension` (useDaoTotalUnits.ts lines 136-167) as a
state transformer: with no contract configured it returns unchanged;
otherwise it reads `balanceOf(TOTAL_ADDRESS, UNITS_ADDRESS)` and
`balanceOf(GUILD_ADDRESS, UNITS_ADDRESS)`, on success stores the total and
the difference total minus guild (FULFILLED), and on any throw clears both
numbers, records the error and reports REJECTED.  The transient PENDING set
on entry is subsumed by the settled outcome modelled here. -/
def getTotalUnitsFromExtension (bank : Option BankExtensionContract)
    (st : UseDaoTotalUnitsState) : UseDaoTotalUnitsState :=
  match bank with
  | none => st
  | some b =>
    match b.balanceOf TOTAL_ADDRESS UNITS_ADDRESS with
    | Except.error e =>
      { totalUnits := none
        totalUnitsIssued := none
        totalUnitsStatus := AsyncStatus.REJECTED
        totalUnitsError := some e }
    | Except.ok totalUnitsToSet =>
      match b.balanceOf GUILD_ADDRESS UNITS_ADDRESS with
      | Except.error e =>
        { totalUnits := none
          totalUnitsIssued := none
          totalUnitsStatus := AsyncStatus.REJECTED
          totalUnitsError := some e }
      | Except.ok balanceOfGuildUnits =>
        { totalUnits := some (toBN totalUnitsToSet : Int)
          totalUnitsIssued :=
            some ((toBN totalUnitsToSet : Int) - (toBN balanceOfGuildUnits : Int))
          totalUnitsStatus := AsyncStatus.FULFILLED
          totalUnitsError := st.totalUnitsError }

/-- A network/contract call observable from outside the hook: a GraphQL
query to the indexing service (keyed by the lower-cased registry address),
or a `balanceOf` contract read. -/
inductive FetchCall
  | indexerQuery (address : Option String)
  | contractRead (account : String) (tokenId : String)
deriving DecidableEq, Repr

/-- The observable inputs of one render of `useDaoTotalUnits`
(useDaoTotalUnits.ts lines 32-51): store selectors, the lazy-query handle
state (`called`, `loading`, `data`, `error`) and the health signal. -/
structure UseDaoTotalUnitsInputs where
  daoRegistryContractAddress : Option String
  bankExtensionContract : Option BankExtensionContract
  subgraphNetworkStatus : SubgraphNetworkStatus
  called : Bool
  loading : Bool
  data : Option SubgraphData
  error : Option ContractError

/-- The network calls issued by `getTotalUnitsFromExtension`: nothing
without a configured contract; otherwise the total-account read, and the
guild-account read when the first one did not throw. -/
def getTotalUnitsFromExtensionCalls (bank : Option BankExtensionContract) :
    List FetchCall :=
  match bank with
  | none => []
  | some b =>
    match b.balanceOf TOTAL_ADDRESS UNITS_ADDRESS with
    | Except.error _ => [FetchCall.contractRead TOTAL_ADDRESS UNITS_ADDRESS]
    | Except.ok _ =>
      [FetchCall.contractRead TOTAL_ADDRESS UNITS_ADDRESS,
        FetchCall.contractRead GUILD_ADDRESS UNITS_ADDRESS]

/-- The network calls issued by `getTotalUnitsFromSubgraph`
(useDaoTotalUnits.ts lines 110-134): it only extracts from the already
fetched `data` (no query of its own); when extraction is impossible it
throws on a recorded query `error`, or on destructuring an empty
`tributeDaos`, and the catch falls back to the contract path. -/
def getTotalUnitsFromSubgraphCalls (inputs : UseDaoTotalUnitsInputs) :
    List FetchCall :=
  if !inputs.loading then
    match inputs.data with
    | some d =>
      match d.tributeDaos with
      | [] => getTotalUnitsFromExtensionCalls inputs.bankExtensionContract
      | _ :: _ => []
    | none =>
      match inputs.error with
      | some _ => getTotalUnitsFromExtensionCalls inputs.bankExtensionContract
      | none => []
  else
    match inputs.error with
    | some _ => getTotalUnitsFromExtensionCalls inputs.bankExtensionContract
    | none => []

/-- The lazy-query effect (useDaoTotalUnits.ts lines 82-86): when the query
has not been called yet, execute it — issuing a GraphQL query to the
indexing service keyed by the lower-cased registry address — regardless of
any other input. -/
def lazyQueryEffectCalls (inputs : UseDaoTotalUnitsInputs) : List FetchCall :=
  if !inputs.called then
    [FetchCall.indexerQuery (inputs.daoRegistryContractAddress.map normalizeString)]
  else
    []

/-- The health-signal effect (useDaoTotalUnits.ts lines 88-104): with the
signal OK, run the subgraph-extraction path when not loading and a registry
address is present; with the signal NOT_OK, go straight to the
direct-contract path. -/
def healthEffectCalls (inputs : UseDaoTotalUnitsInputs) : List FetchCall :=
  match inputs.subgraphNetworkStatus with
  | SubgraphNetworkStatus.OK =>
    if !inputs.loading && inputs.daoRegistryContractAddress.isSome then
      getTotalUnitsFromSubgraphCalls inputs
    else
      []
  | SubgraphNetworkStatus.NOT_OK =>
    getTotalUnitsFromExtensionCalls inputs.bankExtensionContract

/-- All network calls issued by the hook's effects on one render: the
lazy-query effect followed by the health-signal effect. -/
def useDaoTotalUnitsEffectCalls (inputs : UseDaoTotalUnitsInputs) :
    List FetchCall :=
  lazyQueryEffectCalls inputs ++ healthEffectCalls inputs

/-- A never-sponsored proposal (no vote state) whose on-chain record carries
the EXISTS flag. -/
def pExistsOnly : ProposalData :=
  { daoProposal := some { flags := [ProposalFlag.EXISTS] }
    daoProposalVotingState := none
    daoProposalVotes := none
    snapshotProposal := none }

/-- A sponsored proposal whose vote state is IN_PROGRESS and for which the
off-chain results collection holds no entry. -/
def pInProgress : ProposalData :=
  { daoProposal := some { flags := [ProposalFlag.EXISTS, ProposalFlag.SPONSORED] }
    daoProposalVotingState := some VotingState.IN_PROGRESS
    daoProposalVotes := none
    snapshotProposal := some { idInDAO := "proposal-1", votes := some [(), ()] } }

/-- A sponsored proposal whose vote state is PASS. -/
def pPassed : ProposalData :=
  { daoProposal := some { flags := [ProposalFlag.EXISTS, ProposalFlag.SPONSORED] }
    daoProposalVotingState := some VotingState.PASS
    daoProposalVotes := none
    snapshotProposal := some { idInDAO := "proposal-2", votes := some [()] } }

/-- A sponsored proposal whose vote state is NOT_PASS. -/
def pNotPass : ProposalData :=
  { daoProposal := some { flags := [ProposalFlag.EXISTS, ProposalFlag.SPONSORED] }
    daoProposalVotingState := some VotingState.NOT_PASS
    daoProposalVotes := none
    snapshotProposal := some { idInDAO := "proposal-3", votes := some [()] } }

/-- A processed proposal (flags EXISTS and PROCESSED) with no recorded vote
state. -/
def pProcessedNoVoteState : ProposalData :=
  { daoProposal := some { flags := [ProposalFlag.EXISTS, ProposalFlag.PROCESSED] }
    daoProposalVotingState := none
    daoProposalVotes := none
    snapshotProposal := none }

/-- A processed proposal with a recorded PASS vote state. -/
def pProcessedPassed : ProposalData :=
  { daoProposal :=
      some { flags := [ProposalFlag.EXISTS, ProposalFlag.SPONSORED,
                       ProposalFlag.PROCESSED] }
    daoProposalVotingState := some VotingState.PASS
    daoProposalVotes := none
    snapshotProposal := some { idInDAO := "proposal-4", votes := some [()] } }

/-- An off-chain result where Yes strictly outweighs No. -/
def resultYesWins : VotingResult :=
  { Yes := { units := 100000 }, No := { units := 1 } }

/-- An off-chain results collection holding a passing entry for
`pInProgress`, keyed with different letter case to exercise the normalized
lookup. -/
def resultsForInProgress : List (String × VotingResult) :=
  [("Proposal-1", resultYesWins)]

/-- Hook-state snapshot with the primary proposal fetch FULFILLED while the
off-chain tally fetch is still PENDING. -/
def hsPrimaryDoneTallyPending : ProposalsHookState :=
  { proposals := [pExistsOnly]
    proposalsStatus := AsyncStatus.FULFILLED
    offchainVotingResults := []
    offchainVotingResultsStatus := AsyncStatus.PENDING }

/-- Hook-state snapshot with the primary proposal fetch still PENDING. -/
def hsPrimaryPending : ProposalsHookState :=
  { proposals := [pExistsOnly]
    proposalsStatus := AsyncStatus.PENDING
    offchainVotingResults := []
    offchainVotingResultsStatus := AsyncStatus.PENDING }

/-- Fetcher inputs on first render with the health signal NOT_OK: the lazy
query has not been called yet, and no bank extension is configured. -/
def inputsNotOkFirstRender : UseDaoTotalUnitsInputs :=
  { daoRegistryContractAddress := some "0xabc"
    bankExtensionContract := none
    subgraphNetworkStatus := SubgraphNetworkStatus.NOT_OK
    called := false
    loading := false
    data := none
    error := none }

/-- A bank extension answering the total-account read with "100" and any
other account read with "60". -/
def bankHundredSixty : BankExtensionContract :=
  { balanceOf := fun account _tokenId =>
      if account == TOTAL_ADDRESS then Except.ok "100" else Except.ok "60" }

/-- A bank extension whose every read throws. -/
def bankUnreachable : BankExtensionContract :=
  { balanceOf := fun _account _tokenId =>
      Except.error "contract unreachable" }

/-- The empty partition has empty bucket lists. -/
theorem bucketList_empty (b : Bucket) :
    bucketList emptyFilteredProposals b = [] := by
  cases b <;> rfl

/-- Pushing into bucket b' extends exactly the list of b'. -/
theorem bucketList_pushToBucket (acc : FilteredProposals) (b' b : Bucket)
    (q : ProposalData) :
    bucketList (pushToBucket acc b' q) b =
      bucketList acc b ++ (if b' = b then [q] else []) := by
  cases b' <;> cases b <;> simp [pushToBucket, bucketList]

/-- One loop iteration appends the proposal to the list of the bucket it
classifies into, and leaves the other lists unchanged. -/
theorem bucketList_classifyStep (inc : Bool)
    (res : List (String × VotingResult)) (acc : FilteredProposals)
    (q : ProposalData) (b : Bucket) :
    bucketList (classifyStep inc res acc q) b =
      bucketList acc b ++
        (if classifyProposal inc res q = some b then [q] else []) := by
  unfold classifyStep
  cases h : classifyProposal inc res q with
  | none => simp [h]
  | some b' =>
    rw [bucketList_pushToBucket]
    by_cases hb : b' = b
    · subst hb
      simp [h]
    · simp [h, hb]

/-- Membership in a bucket of the fold, for an arbitrary starting
accumulator. -/
theorem mem_bucketList_foldl (inc : Bool)
    (res : List (String × VotingResult)) (b : Bucket)
    (ps : List ProposalData) :
    ∀ (init : FilteredProposals) (p : ProposalData),
      p ∈ bucketList (ps.foldl (classifyStep inc res) init) b ↔
        p ∈ bucketList init b ∨
          (p ∈ ps ∧ classifyProposal inc res p = some b) := by
  induction ps with
  | nil =>
    intro init p
    simp
  | cons q ps ih =>
    intro init p
    rw [List.foldl_cons, ih, bucketList_classifyStep]
    by_cases hq : classifyProposal inc res q = some b
    · simp only [hq, if_pos, List.mem_append, List.mem_singleton,
        List.mem_cons, List.not_mem_nil, or_false]
      constructor
      · rintro ((h | h) | ⟨h1, h2⟩)
        · exact Or.inl h
        · subst h
          exact Or.inr ⟨Or.inl rfl, hq⟩
        · exact Or.inr ⟨Or.inr h1, h2⟩
      · rintro (h | ⟨h1 | h1, h2⟩)
        · exact Or.inl (Or.inl h)
        · subst h1
          exact Or.inl (Or.inr rfl)
        · exact Or.inr ⟨h1, h2⟩
    · simp only [hq, if_neg, not_false_iff, List.append_nil, List.mem_cons]
      constructor
      · rintro (h | ⟨h1, h2⟩)
        · exact Or.inl h
        · exact Or.inr ⟨Or.inr h1, h2⟩
      · rintro (h | ⟨h1 | h1, h2⟩)
        · exact Or.inl h
        · subst h1
          exact absurd h2 hq
        · exact Or.inr ⟨h1, h2⟩

/-- Membership in a bucket of the full classification: a proposal lands in
bucket b exactly when it is in the input list and the per-proposal decision
procedure sends it to b. -/
theorem mem_bucketList_filterProposals (inc : Bool)
    (res : List (String × VotingResult)) (ps : List ProposalData)
    (p : ProposalData) (b : Bucket) :
    p ∈ bucketList (filterProposals inc res ps) b ↔
      p ∈ ps ∧ classifyProposal inc res p = some b := by
  unfold filterProposals
  rw [mem_bucketList_foldl, bucketList_empty]
  simp

/-- A defined vote state can never reach the non-sponsored branch: the
classifier only pushes to non-sponsored from the `voteState === undefined`
arm (part_000 lines 154-163). -/
theorem classify_defined_ne_nonsponsored (inc : Bool)
    (res : List (String × VotingResult)) (p : ProposalData)
    (d : DaoProposal) (vs : VotingState)
    (hd : p.daoProposal = some d)
    (hv : p.daoProposalVotingState = some vs) :
    classifyProposal inc res p ≠ some Bucket.nonsponsored := by
  intro hc
  simp only [classifyProposal, hd, hv] at hc
  split at hc
  · exact Bucket.noConfusion (Option.some.inj hc)
  · split at hc
    · exact Option.noConfusion hc
    · split at hc
      · exact Bucket.noConfusion (Option.some.inj hc)
      · split at hc
        · exact Bucket.noConfusion (Option.some.inj hc)
        · split at hc
          · exact Bucket.noConfusion (Option.some.inj hc)
          · split at hc
            · exact Bucket.noConfusion (Option.some.inj hc)
            · split at hc
              · exact Bucket.noConfusion (Option.some.inj hc)
              · exact Option.noConfusion hc

/-- C4: For every input list of proposals and every off-chain results
collection, each proposal placed in a bucket by the classifier appears in
exactly one of the four buckets (failed, non-sponsored, passed, voting); no
proposal is ever placed in two buckets. -/
theorem claim_C4_bucket_disjointness (inc : Bool)
    (res : List (String × VotingResult)) (ps : List ProposalData)
    (p : ProposalData) (b1 b2 : Bucket)
    (h1 : p ∈ bucketList (filterProposals inc res ps) b1)
    (h2 : p ∈ bucketList (filterProposals inc res ps) b2) :
    b1 = b2 := by
  have c1 := ((mem_bucketList_filterProposals inc res ps p b1).mp h1).2
  have c2 := ((mem_bucketList_filterProposals inc res ps p b2).mp h2).2
  exact Option.some.inj (c1.symm.trans c2)

/-- Witness for C4 at a concrete input: `pExistsOnly` sits in the
non-sponsored bucket, and both memberships being in that bucket forces the
bucket equality. -/
theorem claim_C4_witness : Bucket.nonsponsored = Bucket.nonsponsored :=
  claim_C4_bucket_disjointness false [] [pExistsOnly] pExistsOnly
    Bucket.nonsponsored Bucket.nonsponsored (by decide) (by decide)

/-- C7: For every proposal with a present on-chain record, a defined vote
state equal to PASS, and carrying the SPONSORED or PROCESSED flag, the
classifier places it in the passed bucket, regardless of the content or
availability of any off-chain result for that proposal. -/
theorem claim_C7_pass_goes_to_passed (inc : Bool)
    (res : List (String × VotingResult)) (ps : List ProposalData)
    (p : ProposalData) (d : DaoProposal)
    (hmem : p ∈ ps)
    (hd : p.daoProposal = some d)
    (hv : p.daoProposalVotingState = some VotingState.PASS)
    (hf : proposalHasFlag ProposalFlag.SPONSORED d.flags = true ∨
          proposalHasFlag ProposalFlag.PROCESSED d.flags = true) :
    p ∈ (filterProposals inc res ps).passedProposals := by
  have hPP : proposalHasVotingState VotingState.PASS VotingState.PASS = true :=
    rfl
  have hc : classifyProposal inc res p = some Bucket.passed := by
    rcases hf with h | h <;> simp [classifyProposal, hd, hv, hPP, h]
  exact (mem_bucketList_filterProposals inc res ps p Bucket.passed).mpr
    ⟨hmem, hc⟩

/-- Witness for C7: the sponsored PASS proposal `pPassed` lands in the
passed bucket even though the off-chain results collection is empty. -/
theorem claim_C7_witness :
    pPassed ∈ (filterProposals false [] [pPassed]).passedProposals :=
  claim_C7_pass_goes_to_passed false [] [pPassed] pPassed
    { flags := [ProposalFlag.EXISTS, ProposalFlag.SPONSORED] }
    (by decide) rfl rfl (Or.inl (by decide))

/-- C8: For every proposal with a present on-chain record and no recorded
vote state, the classifier places it in the non-sponsored bucket if and
only if the include-offchain-only configuration option is set or the
proposal carries the EXISTS flag; otherwise the proposal is placed in no
bucket. -/
theorem claim_C8_nonsponsored_iff (inc : Bool)
    (res : List (String × VotingResult)) (ps : List ProposalData)
    (p : ProposalData) (d : DaoProposal)
    (hmem : p ∈ ps)
    (hd : p.daoProposal = some d)
    (hv : p.daoProposalVotingState = none) :
    (p ∈ (filterProposals inc res ps).nonsponsoredProposals ↔
      inc = true ∨ proposalHasFlag ProposalFlag.EXISTS d.flags = true) ∧
    (inc = false → proposalHasFlag ProposalFlag.EXISTS d.flags = false →
      ∀ b, p ∉ bucketList (filterProposals inc res ps) b) := by
  have hcls : classifyProposal inc res p =
      if inc || proposalHasFlag ProposalFlag.EXISTS d.flags then
        some Bucket.nonsponsored
      else none := by
    cases hi : inc <;>
      cases hE : proposalHasFlag ProposalFlag.EXISTS d.flags <;>
        simp [classifyProposal, hd, hv, hi, hE]
  constructor
  · rw [show p ∈ (filterProposals inc res ps).nonsponsoredProposals ↔
        p ∈ bucketList (filterProposals inc res ps) Bucket.nonsponsored from
        Iff.rfl,
      mem_bucketList_filterProposals, hcls]
    cases hi : inc <;>
      cases hE : proposalHasFlag ProposalFlag.EXISTS d.flags <;>
        simp [hmem]
  · intro hi hE b hbmem
    have hc :=
      ((mem_bucketList_filterProposals inc res ps p b).mp hbmem).2
    rw [hcls, hi, hE] at hc
    exact Option.noConfusion hc

/-- Witness for C8: `pExistsOnly` carries EXISTS and no vote state, so with
the configuration option off it still lands in the non-sponsored bucket. -/
theorem claim_C8_witness :
    pExistsOnly ∈ (filterProposals false [] [pExistsOnly]).nonsponsoredProposals :=
  ((claim_C8_nonsponsored_iff false [] [pExistsOnly] pExistsOnly
      { flags := [ProposalFlag.EXISTS] } (by decide) rfl rfl).1).mpr
    (Or.inr (by decide))

/-- Counterexample for C9 as stated: `pProcessedNoVoteState` carries the
PROCESSED flag, yet with no recorded vote state the non-sponsored branch
tests only the configuration option and the EXISTS flag (part_000 lines
154-163), so the classifier places it in the non-sponsored bucket even with
the include-offchain-only option off. -/
theorem claim_C9_counterexample :
    proposalHasFlag ProposalFlag.PROCESSED
        [ProposalFlag.EXISTS, ProposalFlag.PROCESSED] = true ∧
    pProcessedNoVoteState.daoProposal =
      some { flags := [ProposalFlag.EXISTS, ProposalFlag.PROCESSED] } ∧
    classifyProposal false [] pProcessedNoVoteState =
      some Bucket.nonsponsored ∧
    pProcessedNoVoteState ∈
      (filterProposals false [] [pProcessedNoVoteState]).nonsponsoredProposals := by
  refine ⟨by decide, rfl, by decide, ?_⟩
  decide

/-- C9 as amended: for every proposal carrying the PROCESSED flag whose vote
state is recorded (defined), under any configuration the classifier never
places it in the non-sponsored bucket (only the undefined-vote-state branch
can reach that bucket). -/
theorem claim_C9_amended_processed_not_nonsponsored (inc : Bool)
    (res : List (String × VotingResult)) (ps : List ProposalData)
    (p : ProposalData) (d : DaoProposal) (vs : VotingState)
    (hd : p.daoProposal = some d)
    (hv : p.daoProposalVotingState = some vs)
    (_hproc : proposalHasFlag ProposalFlag.PROCESSED d.flags = true) :
    p ∉ (filterProposals inc res ps).nonsponsoredProposals := by
  intro hmem
  have hc :=
    ((mem_bucketList_filterProposals inc res ps p Bucket.nonsponsored).mp
      hmem).2
  exact classify_defined_ne_nonsponsored inc res p d vs hd hv hc

/-- Witness for amended C9: the processed, passed proposal
`pProcessedPassed` is never placed in the non-sponsored bucket. -/
theorem claim_C9_witness :
    pProcessedPassed ∉
      (filterProposals true [] [pProcessedPassed]).nonsponsoredProposals :=
  claim_C9_amended_processed_not_nonsponsored true [] [pProcessedPassed]
    pProcessedPassed
    { flags := [ProposalFlag.EXISTS, ProposalFlag.SPONSORED,
                ProposalFlag.PROCESSED] }
    VotingState.PASS rfl rfl (by decide)

/-- C10: For every proposal with a present on-chain record and a defined
vote state that is not placed in the passed bucket, if no entry of the
off-chain results collection matches the proposal's normalized identifier,
the classifier places the proposal in no bucket at all (part_000 lines
177-183, the early return before every failed/voting branch). -/
theorem claim_C10_no_offchain_result_drops (inc : Bool)
    (res : List (String × VotingResult)) (ps : List ProposalData)
    (p : ProposalData) (d : DaoProposal) (vs : VotingState)
    (hd : p.daoProposal = some d)
    (hv : p.daoProposalVotingState = some vs)
    (hnp : classifyProposal inc res p ≠ some Bucket.passed)
    (hlk : offchainResultLookup res p = none) :
    classifyProposal inc res p = none ∧
      ∀ b, p ∉ bucketList (filterProposals inc res ps) b := by
  have hc : classifyProposal inc res p = none := by
    cases hcond : (proposalHasVotingState VotingState.PASS vs &&
        (proposalHasFlag ProposalFlag.SPONSORED d.flags ||
          proposalHasFlag ProposalFlag.PROCESSED d.flags)) with
    | true =>
      exact absurd (by simp [classifyProposal, hd, hv, hcond]) hnp
    | false =>
      simp [classifyProposal, hd, hv, hcond, hlk]
  refine ⟨hc, ?_⟩
  intro b hbmem
  have hb :=
    ((mem_bucketList_filterProposals inc res ps p b).mp hbmem).2
  rw [hc] at hb
  exact Option.noConfusion hb

/-- Witness for C10: the sponsored NOT_PASS proposal `pNotPass` with an
empty off-chain results collection is dropped entirely. -/
theorem claim_C10_witness :
    classifyProposal false [] pNotPass = none ∧
      pNotPass ∉ (filterProposals false [] [pNotPass]).failedProposals :=
  ⟨(claim_C10_no_offchain_result_drops false [] [pNotPass] pNotPass
      { flags := [ProposalFlag.EXISTS, ProposalFlag.SPONSORED] }
      VotingState.NOT_PASS rfl rfl (by decide) (by decide)).1,
    (claim_C10_no_offchain_result_drops false [] [pNotPass] pNotPass
      { flags := [ProposalFlag.EXISTS, ProposalFlag.SPONSORED] }
      VotingState.NOT_PASS rfl rfl (by decide) (by decide)).2 Bucket.failed⟩

/-- Counterexample for C1 as stated: `pInProgress` has a present on-chain
record, vote state IN_PROGRESS, the SPONSORED flag, and no off-chain result
in the (empty) collection — yet the classifier drops it entirely via the
early return at part_000 line 183, instead of placing it in the voting
bucket. -/
theorem claim_C1_counterexample :
    pInProgress.daoProposal =
      some { flags := [ProposalFlag.EXISTS, ProposalFlag.SPONSORED] } ∧
    pInProgress.daoProposalVotingState = some VotingState.IN_PROGRESS ∧
    proposalHasFlag ProposalFlag.SPONSORED
      [ProposalFlag.EXISTS, ProposalFlag.SPONSORED] = true ∧
    offchainResultLookup [] pInProgress = none ∧
    classifyProposal false [] pInProgress = none ∧
    pInProgress ∉ (filterProposals false [] [pInProgress]).votingProposals := by
  refine ⟨rfl, rfl, by decide, rfl, by decide, by decide⟩

/-- C1 as amended: for every proposal whose on-chain record is present,
whose vote state is GRACE_PERIOD or IN_PROGRESS, which carries the
SPONSORED flag, and for which an off-chain result IS available in the
off-chain results collection, the classifier places the proposal in the
voting bucket — unless the vote state is GRACE_PERIOD, the recorded
reporter is the burn address, and the proposal has zero recorded off-chain
votes or the result did not pass (those excluded cases go to failed). -/
theorem claim_C1_amended_voting (inc : Bool)
    (res : List (String × VotingResult)) (ps : List ProposalData)
    (p : ProposalData) (d : DaoProposal) (vs : VotingState)
    (result : VotingResult)
    (hmem : p ∈ ps)
    (hd : p.daoProposal = some d)
    (hv : p.daoProposalVotingState = some vs)
    (hvs : vs = VotingState.GRACE_PERIOD ∨ vs = VotingState.IN_PROGRESS)
    (hsp : proposalHasFlag ProposalFlag.SPONSORED d.flags = true)
    (hlk : offchainResultLookup res p = some result)
    (hnf : ¬(vs = VotingState.GRACE_PERIOD ∧ reporterIsBurnAddress p = true ∧
        (noSnapshotVotes p = true ∨ didPassSimpleMajority result = false))) :
    p ∈ (filterProposals inc res ps).votingProposals := by
  have hc : classifyProposal inc res p = some Bucket.voting := by
    rcases hvs with hvs | hvs <;> subst hvs
    · have e1 : proposalHasVotingState VotingState.PASS
          VotingState.GRACE_PERIOD = false := rfl
      have e2 : proposalHasVotingState VotingState.GRACE_PERIOD
          VotingState.GRACE_PERIOD = true := rfl
      have e3 : proposalHasVotingState VotingState.TIE
          VotingState.GRACE_PERIOD = false := rfl
      have e4 : proposalHasVotingState VotingState.NOT_PASS
          VotingState.GRACE_PERIOD = false := rfl
      have e5 : proposalHasVotingState VotingState.IN_PROGRESS
          VotingState.GRACE_PERIOD = false := rfl
      cases hrb : reporterIsBurnAddress p with
      | false =>
        simp [classifyProposal, hd, hv, hlk, offchainResultNotYetSubmitted,
          e1, e2, e3, e4, e5, hsp, hrb]
      | true =>
        have hnv : noSnapshotVotes p = false := by
          cases hnsv : noSnapshotVotes p
          · rfl
          · exact absurd ⟨rfl, hrb, Or.inl hnsv⟩ hnf
        have hdp : didPassSimpleMajority result = true := by
          cases hdps : didPassSimpleMajority result
          · exact absurd ⟨rfl, hrb, Or.inr hdps⟩ hnf
          · rfl
        simp [classifyProposal, hd, hv, hlk, offchainResultNotYetSubmitted,
          e1, e2, e3, e4, e5, hsp, hrb, hnv, hdp]
    · have f1 : proposalHasVotingState VotingState.PASS
          VotingState.IN_PROGRESS = false := rfl
      have f2 : proposalHasVotingState VotingState.GRACE_PERIOD
          VotingState.IN_PROGRESS = false := rfl
      have f3 : proposalHasVotingState VotingState.TIE
          VotingState.IN_PROGRESS = false := rfl
      have f4 : proposalHasVotingState VotingState.NOT_PASS
          VotingState.IN_PROGRESS = false := rfl
      have f5 : proposalHasVotingState VotingState.IN_PROGRESS
          VotingState.IN_PROGRESS = true := rfl
      simp [classifyProposal, hd, hv, hlk, offchainResultNotYetSubmitted,
        f1, f2, f3, f4, f5, hsp]
  exact (mem_bucketList_filterProposals inc res ps p Bucket.voting).mpr
    ⟨hmem, hc⟩

/-- Witness for amended C1: `pInProgress` with a case-insensitively matching
off-chain result entry lands in the voting bucket. -/
theorem claim_C1_witness :
    pInProgress ∈
      (filterProposals false resultsForInProgress [pInProgress]).votingProposals :=
  claim_C1_amended_voting false resultsForInProgress [pInProgress] pInProgress
    { flags := [ProposalFlag.EXISTS, ProposalFlag.SPONSORED] }
    VotingState.IN_PROGRESS resultYesWins (by decide) rfl rfl (Or.inr rfl)
    (by decide) (by decide) (by decide)

/-- Counterexample for C3 as stated: with the primary proposal fetch
FULFILLED but the off-chain tally fetch still PENDING (a non-terminal
status), one run of the classification effect already recomputes the
partition — the guard at part_000 line 127 checks only the primary fetch's
status. -/
theorem claim_C3_counterexample :
    hsPrimaryDoneTallyPending.offchainVotingResultsStatus =
      AsyncStatus.PENDING ∧
    AsyncStatus.PENDING ≠ AsyncStatus.FULFILLED ∧
    AsyncStatus.PENDING ≠ AsyncStatus.REJECTED ∧
    classificationEffectRun false hsPrimaryDoneTallyPending
        emptyFilteredProposals ≠
      emptyFilteredProposals := by
  refine ⟨rfl, by decide, by decide, by decide⟩

/-- C3 as amended: the classification effect recomputes the partition
exactly when the primary proposal fetch's status is FULFILLED (a REJECTED
primary fetch also defers); the off-chain tally fetch's status does not
gate classification at all — the consumer-visible loading flag, not the
classifier, accounts for the off-chain fetch being in flight. -/
theorem claim_C3_amended_guard (inc : Bool) (hs : ProposalsHookState)
    (prev : FilteredProposals) :
    (hs.proposalsStatus ≠ AsyncStatus.FULFILLED →
      classificationEffectRun inc hs prev = prev) ∧
    (hs.proposalsStatus = AsyncStatus.FULFILLED →
      classificationEffectRun inc hs prev =
        filterProposals inc hs.offchainVotingResults hs.proposals) := by
  constructor
  · intro h
    have hb : (hs.proposalsStatus != AsyncStatus.FULFILLED) = true := by
      cases hps : hs.proposalsStatus <;> simp_all <;> rfl
    simp [classificationEffectRun, hb]
  · intro h
    have hb : (hs.proposalsStatus != AsyncStatus.FULFILLED) = false := by
      rw [h]
      rfl
    simp [classificationEffectRun, hb]

/-- Witness for amended C3: with the primary fetch PENDING the partition is
left untouched, and with it FULFILLED the partition is recomputed even
though the off-chain tally fetch is PENDING in both snapshots. -/
theorem claim_C3_witness :
    classificationEffectRun false hsPrimaryPending emptyFilteredProposals =
      emptyFilteredProposals ∧
    classificationEffectRun false hsPrimaryDoneTallyPending
        emptyFilteredProposals =
      filterProposals false [] [pExistsOnly] :=
  ⟨(claim_C3_amended_guard false hsPrimaryPending emptyFilteredProposals).1
      (by decide),
    (claim_C3_amended_guard false hsPrimaryDoneTallyPending
      emptyFilteredProposals).2 rfl⟩

/-- Counterexample for C2 as stated: on first render (`called = false`) with
the health signal NOT_OK, the lazy-query effect of useDaoTotalUnits.ts
lines 82-86 still issues the GraphQL query to the indexing service. -/
theorem claim_C2_counterexample :
    inputsNotOkFirstRender.subgraphNetworkStatus =
      SubgraphNetworkStatus.NOT_OK ∧
    FetchCall.indexerQuery (some "0xabc") ∈
      useDaoTotalUnitsEffectCalls inputsNotOkFirstRender := by
  exact ⟨rfl, by decide⟩

/-- C2 as amended: whenever the health signal is NOT_OK, the health-signal
effect (useDaoTotalUnits.ts lines 88-104) issues no indexer query and goes
straight to the direct-contract path; only the initial lazy-query effect
(lines 82-86) issues an indexer query, and it does so regardless of the
health signal. -/
theorem claim_C2_amended_health_effect (inputs : UseDaoTotalUnitsInputs)
    (h : inputs.subgraphNetworkStatus = SubgraphNetworkStatus.NOT_OK) :
    healthEffectCalls inputs =
      getTotalUnitsFromExtensionCalls inputs.bankExtensionContract ∧
    ∀ a, FetchCall.indexerQuery a ∉ healthEffectCalls inputs := by
  have h1 : healthEffectCalls inputs =
      getTotalUnitsFromExtensionCalls inputs.bankExtensionContract := by
    unfold healthEffectCalls
    rw [h]
  refine ⟨h1, ?_⟩
  intro a hmem
  rw [h1] at hmem
  unfold getTotalUnitsFromExtensionCalls at hmem
  cases hb : inputs.bankExtensionContract with
  | none =>
    rw [hb] at hmem
    exact List.not_mem_nil _ hmem
  | some b =>
    rw [hb] at hmem
    rcases hc : b.balanceOf TOTAL_ADDRESS UNITS_ADDRESS with e | v <;>
      simp [hc] at hmem

/-- Witness for amended C2: with the NOT_OK first-render inputs the
health-signal effect issues no calls at all (no bank extension configured),
in particular no indexer query. -/
theorem claim_C2_witness :
    healthEffectCalls inputsNotOkFirstRender =
      getTotalUnitsFromExtensionCalls none ∧
    FetchCall.indexerQuery (some "0xabc") ∉
      healthEffectCalls inputsNotOkFirstRender :=
  ⟨(claim_C2_amended_health_effect inputsNotOkFirstRender rfl).1,
    (claim_C2_amended_health_effect inputsNotOkFirstRender rfl).2
      (some "0xabc")⟩

/-- C5: Whenever the direct-contract path completes successfully with total
balance T and guild balance G (decimal-string integers), the fetcher
reports totalUnits = T and totalUnitsIssued = T − G with status FULFILLED;
under the precondition G ≤ T the reported totalUnitsIssued is ≥ 0, and a
negative difference is reported as-is rather than silently clamped. -/
theorem claim_C5_issued_units (b : BankExtensionContract)
    (st : UseDaoTotalUnitsState) (tStr gStr : String)
    (ht : b.balanceOf TOTAL_ADDRESS UNITS_ADDRESS = Except.ok tStr)
    (hg : b.balanceOf GUILD_ADDRESS UNITS_ADDRESS = Except.ok gStr) :
    (getTotalUnitsFromExtension (some b) st).totalUnits =
      some (toBN tStr : Int) ∧
    (getTotalUnitsFromExtension (some b) st).totalUnitsIssued =
      some ((toBN tStr : Int) - (toBN gStr : Int)) ∧
    (getTotalUnitsFromExtension (some b) st).totalUnitsStatus =
      AsyncStatus.FULFILLED ∧
    (toBN gStr ≤ toBN tStr →
      (0 : Int) ≤ (toBN tStr : Int) - (toBN gStr : Int)) ∧
    (toBN tStr < toBN gStr →
      (toBN tStr : Int) - (toBN gStr : Int) < 0) := by
  refine ⟨?_, ?_, ?_, ?_, ?_⟩
  · simp [getTotalUnitsFromExtension, ht, hg]
  · simp [getTotalUnitsFromExtension, ht, hg]
  · simp [getTotalUnitsFromExtension, ht, hg]
  · intro h
    omega
  · intro h
    omega

/-- Witness for C5: the bank answering 100 total and 60 guild-held units
yields totalUnits 100 and totalUnitsIssued 40 with status FULFILLED. -/
theorem claim_C5_witness :
    (getTotalUnitsFromExtension (some bankHundredSixty)
        initialTotalUnitsState).totalUnits = some 100 ∧
    (getTotalUnitsFromExtension (some bankHundredSixty)
        initialTotalUnitsState).totalUnitsIssued = some 40 ∧
    (getTotalUnitsFromExtension (some bankHundredSixty)
        initialTotalUnitsState).totalUnitsStatus = AsyncStatus.FULFILLED := by
  have h := claim_C5_issued_units bankHundredSixty initialTotalUnitsState
    "100" "60" rfl rfl
  refine ⟨?_, ?_, h.2.2.1⟩
  · rw [h.1]
    decide
  · rw [h.2.1]
    decide

/-- C6: Whenever the direct-contract path fails (either contract read
throws), the fetcher sets both totalUnits and totalUnitsIssued to
undefined, records the underlying error, and reports status REJECTED
(useDaoTotalUnits.ts lines 160-166). -/
theorem claim_C6_rejected_on_failure (b : BankExtensionContract)
    (st : UseDaoTotalUnitsState) (e : ContractError)
    (h : b.balanceOf TOTAL_ADDRESS UNITS_ADDRESS = Except.error e ∨
      ∃ tStr, b.balanceOf TOTAL_ADDRESS UNITS_ADDRESS = Except.ok tStr ∧
        b.balanceOf GUILD_ADDRESS UNITS_ADDRESS = Except.error e) :
    getTotalUnitsFromExtension (some b) st =
      { totalUnits := none
        totalUnitsIssued := none
        totalUnitsStatus := AsyncStatus.REJECTED
        totalUnitsError := some e } := by
  rcases h with h | ⟨tStr, h1, h2⟩
  · simp [getTotalUnitsFromExtension, h]
  · simp [getTotalUnitsFromExtension, h1, h2]

/-- Witness for C6: the always-throwing bank yields cleared numbers, the
recorded error, and status REJECTED. -/
theorem claim_C6_witness :
    getTotalUnitsFromExtension (some bankUnreachable) initialTotalUnitsState =
      { totalUnits := none
        totalUnitsIssued := none
        totalUnitsStatus := AsyncStatus.REJECTED
        totalUnitsError := some "contract unreachable" } :=
  claim_C6_rejected_on_failure bankUnreachable initialTotalUnitsState
    "contract unreachable" (Or.inl rfl)
